import Mathlib

/-!
# MidiJack plugin (MidiJackPlugin.cpp): embedding and verified properties

The plugin keeps five collections behind one recursive mutex and talks to the
Windows multimedia driver.  This development embeds the sequential behaviour of
each function as a pure function on a `World`: the five collections, the state
of the driver and a log of the driver calls made so far.

* Handles and ids are natural numbers; fixed-width conversions are written with
  an explicit `% 2 ^ w`.
* The driver is a record of transition functions over an arbitrary state type
  `D`; quantifying over the record and over `D` covers every deterministic
  driver behaviour, history-dependent ones included.
* A callback (`MidiInProc`, `MidiOutProc`) is one atomic step: its body runs
  between `lock` and `unlock`.
* A returned `const char*` is a `CharPtr`: the content of the string it points
  into, and whether that string outlives the call.
* `while` loops carry a fuel argument that the caller sets to the length of the
  collection being drained; the theorems show that the loop condition is false
  when the loop stops.
-/

namespace MidiJack

/-! ## Device ids -/

/-- Width of a pointer (and of `size_t`, `DWORD_PTR`) in bits: 64 when `_WIN64`
is defined and 32 otherwise. -/
def pointerBits (win64 : Bool) : Nat := if win64 then 64 else 32

/-- `DeviceHandleToID`.  With `_WIN64` the handle is read as a `uint64_t` and
`static_cast` to the 32-bit `DeviceID`; otherwise the 32-bit pointer is
reinterpreted as the `DeviceID`. -/
def DeviceHandleToID (win64 : Bool) (handle : Nat) : Nat :=
  if win64 then (handle % 2 ^ 64) % 2 ^ 32 else handle % 2 ^ 32

/-- `DeviceIDToHandle`.  The 32-bit id is widened to `uint64_t` and reinterpreted
as a handle (`_WIN64`), or reinterpreted directly. -/
def DeviceIDToHandle (win64 : Bool) (id : Nat) : Nat :=
  if win64 then (id % 2 ^ 32) % 2 ^ 64 else id % 2 ^ 32

/-! ## MIDI messages -/

/-- The class `MidiMessage`: a 32-bit source id and three bytes. -/
structure MidiMessage where
  source_ : Nat
  status_ : Nat
  data1_ : Nat
  data2_ : Nat
  deriving DecidableEq, Repr

/-- The constructor `MidiMessage(DeviceID source, uint32_t rawData)`:
`status_(rawData), data1_(rawData >> 8), data2_(rawData >> 16)`, each narrowed to
`uint8_t`. -/
def MidiMessage.new (source rawData : Nat) : MidiMessage :=
  { source_ := source % 2 ^ 32
    status_ := (rawData % 2 ^ 32) % 2 ^ 8
    data1_ := ((rawData % 2 ^ 32) >>> 8) % 2 ^ 8
    data2_ := ((rawData % 2 ^ 32) >>> 16) % 2 ^ 8 }

/-- `MidiMessage::Encode64Bit`: the fields are or-ed into a `uint64_t` at bit
offsets 0, 32, 40 and 48. -/
def MidiMessage.Encode64Bit (m : MidiMessage) : Nat :=
  let ul := m.source_ % 2 ^ 64
  let ul := ul ||| ((m.status_ <<< 32) % 2 ^ 64)
  let ul := ul ||| ((m.data1_ <<< 40) % 2 ^ 64)
  let ul := ul ||| ((m.data2_ <<< 48) % 2 ^ 64)
  ul

/-! ## The driver and the global state -/

/-- One call of a driver entry point, with the value the driver answered where
the code reads one. -/
inductive DriverCall where
  | midiInOpen (index : Nat) (result : Option Nat)
  | midiInStart (handle : Nat) (ok : Bool)
  | midiInClose (handle : Nat)
  | midiOutOpen (index : Nat) (result : Option Nat)
  | midiOutReset (handle : Nat)
  | midiOutClose (handle : Nat)
  | midiInGetNumDevs (count : Nat)
  | midiOutGetNumDevs (count : Nat)
  | midiOutGetDevCaps (id : Nat) (result : Option (List Nat))
  | midiOutShortMsg (handle : Nat) (packet : Nat)
  deriving DecidableEq, Repr

/-- The multimedia driver, an external collaborator.  An open answers
`some handle` for `MMSYSERR_NOERROR` and `none` for an error; `midiInStart`
answers whether it returned `MMSYSERR_NOERROR`; the device counts are `UINT`
values; `midiOutGetDevCaps` answers the wide characters of `szPname` on
success. -/
structure Driver (D : Type) where
  midiInOpen : D → Nat → Option Nat × D
  midiInStart : D → Nat → Bool × D
  midiInClose : D → Nat → D
  midiOutOpen : D → Nat → Option Nat × D
  midiOutReset : D → Nat → D
  midiOutClose : D → Nat → D
  midiInGetNumDevs : D → Nat × D
  midiOutGetNumDevs : D → Nat × D
  midiOutGetDevCaps : D → Nat → Option (List Nat) × D
  midiOutShortMsg : D → Nat → Nat → Nat × D

/-- The global variables of the plugin together with the driver.  Both stacks
keep their top at the head of the list; `calls` lists the driver calls made so
far, oldest first. -/
structure World (D : Type) where
  message_queue : List MidiMessage
  active_in_handles : List Nat
  active_out_handles : List Nat
  in_handles_to_close : List Nat
  out_handles_to_close : List Nat
  driver : D
  calls : List DriverCall

/-- The messages `wMsg` a MIDI input callback can receive. -/
inductive InMsg where
  | MIM_OPEN | MIM_CLOSE | MIM_DATA | MIM_LONGDATA | MIM_ERROR | MIM_LONGERROR | MIM_MOREDATA
  deriving DecidableEq, Repr

/-- The messages `wMsg` a MIDI output callback can receive. -/
inductive OutMsg where
  | MOM_OPEN | MOM_CLOSE | MOM_DONE
  deriving DecidableEq, Repr

/-! ## Callbacks -/

/-- `MidiInProc`: a data notification appends one message built from the handle
and the low 32 bits of `dwParam1`; a close notification pushes the handle on
`in_handles_to_close`; every other message is ignored. -/
def MidiInProc {D : Type} (win64 : Bool) (hMidiIn : Nat) (wMsg : InMsg) (dwParam1 : Nat)
    (w : World D) : World D :=
  if wMsg = InMsg.MIM_DATA then
    let id := DeviceHandleToID win64 hMidiIn
    let raw := dwParam1 % 2 ^ 32
    { w with message_queue := w.message_queue ++ [MidiMessage.new id raw] }
  else if wMsg = InMsg.MIM_CLOSE then
    { w with in_handles_to_close := hMidiIn :: w.in_handles_to_close }
  else w

/-- `MidiOutProc`: a close notification pushes the handle on
`out_handles_to_close`. -/
def MidiOutProc {D : Type} (hMidiOut : Nat) (wMsg : OutMsg) (w : World D) : World D :=
  if wMsg = OutMsg.MOM_CLOSE then
    { w with out_handles_to_close := hMidiOut :: w.out_handles_to_close }
  else w

/-! ## Device names -/

/-- The conversion `std::string(name.begin(), name.end())` of the wide string
built from `szPname`: the characters before the first NUL, each narrowed to one
byte. -/
def narrowName (szPname : List Nat) : String :=
  String.mk ((szPname.takeWhile (fun c => c != 0)).map (fun c => Char.ofNat (c % 256)))

/-- `GetOutDeviceName`: the handle, cast to `UINT_PTR`, is handed to
`midiOutGetDevCaps`; the answer is the narrowed name, or `"unknown"`. -/
def GetOutDeviceName {D : Type} (drv : Driver D) (handle : Nat) (w : World D) :
    String × World D :=
  let r := drv.midiOutGetDevCaps w.driver handle
  let w1 := { w with driver := r.2, calls := w.calls ++ [DriverCall.midiOutGetDevCaps handle r.1] }
  match r.1 with
  | some szPname => (narrowName szPname, w1)
  | none => ("unknown", w1)

/-! ## Opening and closing -/

/-- `OpenInDevice`: open, then start; the handle is registered only when both
succeed, and closed again when the start fails. -/
def OpenInDevice {D : Type} (drv : Driver D) (index : Nat) (w : World D) : World D :=
  let r := drv.midiInOpen w.driver index
  let w1 := { w with driver := r.2, calls := w.calls ++ [DriverCall.midiInOpen index r.1] }
  match r.1 with
  | some handle =>
    let s := drv.midiInStart w1.driver handle
    let w2 := { w1 with driver := s.2, calls := w1.calls ++ [DriverCall.midiInStart handle s.1] }
    if s.1 then
      { w2 with active_in_handles := w2.active_in_handles ++ [handle] }
    else
      { w2 with driver := drv.midiInClose w2.driver handle
                calls := w2.calls ++ [DriverCall.midiInClose handle] }
  | none => w1

/-- `ClearEmptyOutHandles`: erase-remove of `nullptr`. -/
def ClearEmptyOutHandles {D : Type} (w : World D) : World D :=
  { w with active_out_handles := w.active_out_handles.filter (fun x => x != 0) }

/-- `OpenOutDevice`: purge the null entries, open, and register the handle
unless `std::find` meets it in the collection. -/
def OpenOutDevice {D : Type} (drv : Driver D) (index : Nat) (w : World D) : World D :=
  let w0 := ClearEmptyOutHandles w
  let r := drv.midiOutOpen w0.driver index
  let w1 := { w0 with driver := r.2, calls := w0.calls ++ [DriverCall.midiOutOpen index r.1] }
  match r.1 with
  | some handle =>
    if handle ∈ w1.active_out_handles then w1
    else { w1 with active_out_handles := w1.active_out_handles ++ [handle] }
  | none => w1

/-- `CloseInDevice`: `midiInClose`, then `active_in_handles.remove(handle)`. -/
def CloseInDevice {D : Type} (drv : Driver D) (handle : Nat) (w : World D) : World D :=
  { w with driver := drv.midiInClose w.driver handle
           calls := w.calls ++ [DriverCall.midiInClose handle]
           active_in_handles := w.active_in_handles.filter (fun x => x != handle) }

/-- `CloseOutDevice`: `midiOutReset`, `midiOutClose`, then erase-remove of the
handle from `active_out_handles`. -/
def CloseOutDevice {D : Type} (drv : Driver D) (handle : Nat) (w : World D) : World D :=
  { w with driver := drv.midiOutClose (drv.midiOutReset w.driver handle) handle
           calls := w.calls ++ [DriverCall.midiOutReset handle, DriverCall.midiOutClose handle]
           active_out_handles := w.active_out_handles.filter (fun x => x != handle) }

/-- Value of an `int` initialised from a `UINT`: the 32-bit pattern read as two's
complement. -/
def uintToInt (n : Nat) : Int :=
  if n % 2 ^ 32 < 2 ^ 31 then ((n % 2 ^ 32 : Nat) : Int) else ((n % 2 ^ 32 : Nat) : Int) - 2 ^ 32

/-- The loop `for (i; i < device_count; i++) OpenInDevice(i)` with `remaining`
iterations left. -/
def openInLoop {D : Type} (drv : Driver D) : Nat → Nat → World D → World D
  | 0, _, w => w
  | remaining + 1, i, w => openInLoop drv remaining (i + 1) (OpenInDevice drv i w)

/-- The loop `for (i; i < device_count; i++) OpenOutDevice(i)` with `remaining`
iterations left. -/
def openOutLoop {D : Type} (drv : Driver D) : Nat → Nat → World D → World D
  | 0, _, w => w
  | remaining + 1, i, w => openOutLoop drv remaining (i + 1) (OpenOutDevice drv i w)

/-- `OpenAllInDevices`: `int device_count = midiInGetNumDevs()`, then one
`OpenInDevice(i)` for each `i` from 0 while `i < device_count`. -/
def OpenAllInDevices {D : Type} (drv : Driver D) (w : World D) : World D :=
  let r := drv.midiInGetNumDevs w.driver
  let w1 := { w with driver := r.2, calls := w.calls ++ [DriverCall.midiInGetNumDevs r.1] }
  let device_count := uintToInt r.1
  openInLoop drv device_count.toNat 0 w1

/-- `OpenAllOutDevices`: the same loop over the output devices. -/
def OpenAllOutDevices {D : Type} (drv : Driver D) (w : World D) : World D :=
  let r := drv.midiOutGetNumDevs w.driver
  let w1 := { w with driver := r.2, calls := w.calls ++ [DriverCall.midiOutGetNumDevs r.1] }
  let device_count := uintToInt r.1
  openOutLoop drv device_count.toNat 0 w1

/-! ## Refresh -/

/-- The loop `while (!in_handles_to_close.empty()) { CloseInDevice(top); pop; }`. -/
def closePendingIn {D : Type} (drv : Driver D) : Nat → World D → World D
  | 0, w => w
  | fuel + 1, w =>
    match w.in_handles_to_close with
    | [] => w
    | top :: _ =>
      let w1 := CloseInDevice drv top w
      closePendingIn drv fuel { w1 with in_handles_to_close := w1.in_handles_to_close.tail }

/-- The loop `while (!out_handles_to_close.empty()) { CloseOutDevice(top); pop; }`. -/
def closePendingOut {D : Type} (drv : Driver D) : Nat → World D → World D
  | 0, w => w
  | fuel + 1, w =>
    match w.out_handles_to_close with
    | [] => w
    | top :: _ =>
      let w1 := CloseOutDevice drv top w
      closePendingOut drv fuel { w1 with out_handles_to_close := w1.out_handles_to_close.tail }

/-- `RefreshDevices`: drain both pending-close stacks, then try to open every
device. -/
def RefreshDevices {D : Type} (drv : Driver D) (w : World D) : World D :=
  let w1 := closePendingIn drv w.in_handles_to_close.length w
  let w2 := closePendingOut drv w1.out_handles_to_close.length w1
  let w3 := OpenAllInDevices drv w2
  OpenAllOutDevices drv w3

/-! ## Closing everything -/

/-- The loop `while (!active_in_handles.empty()) CloseInDevice(front)`. -/
def closeAllIn {D : Type} (drv : Driver D) : Nat → World D → World D
  | 0, w => w
  | fuel + 1, w =>
    match w.active_in_handles with
    | [] => w
    | front :: _ => closeAllIn drv fuel (CloseInDevice drv front w)

/-- Storage of `active_out_handles` after `erase(remove(begin, end, value), end)`,
for a vector whose `size` elements are the first cells of `buf`: the elements
that differ from `value` are moved to the front, and the cells after them keep
what they held (the erased tail is trivially destructible, so nothing is
written there). -/
def eraseRemoveStorage (buf : List Nat) (size value : Nat) : List Nat :=
  let kept := (buf.take size).filter (fun x => x != value)
  kept ++ buf.drop kept.length

/-- The range-based loop `for (DeviceOutHandle &handle : active_out_handles)
CloseOutDevice(handle)`.  The loop takes `begin` and `end` once, before the
first iteration, and then steps a pointer from the one to the other; the body
erases from the vector meanwhile.  `buf` is the storage between the two
pointers, `i` the position of the loop pointer and `remaining` its distance to
the saved `end`; the vector itself is the first `active_out_handles.length`
cells of `buf`. -/
def closeAllOutLoop {D : Type} (drv : Driver D) : Nat → Nat → List Nat → World D → World D
  | 0, _, _, w => w
  | remaining + 1, i, buf, w =>
    let handle := buf.getD i 0
    closeAllOutLoop drv remaining (i + 1)
      (eraseRemoveStorage buf w.active_out_handles.length handle)
      (CloseOutDevice drv handle w)

/-- `CloseAllDevices`: the input loop, then the range-based loop over the
output handles. -/
def CloseAllDevices {D : Type} (drv : Driver D) (w : World D) : World D :=
  let w1 := closeAllIn drv w.active_in_handles.length w
  closeAllOutLoop drv w1.active_out_handles.length 0 w1.active_out_handles w1

/-! ## Exported functions -/

/-- Value of a 32-bit `int` converted to `size_t`. -/
def intToSizeT (win64 : Bool) (index : Int) : Nat :=
  (index % (2 : Int) ^ pointerBits win64).toNat

/-- The string that reports an index without a device. -/
def NO_DEVICE_AT_INDEX : String := "NO_DEVICE_AT_INDEX"

/-- `GetOutDeviceAtIndex`: the test `index < active_out_handles.size() && index >= 0`
compares after converting `index` to `size_t`. -/
def GetOutDeviceAtIndex {D : Type} (drv : Driver D) (win64 : Bool) (index : Int) (w : World D) :
    String × World D :=
  if intToSizeT win64 index < w.active_out_handles.length ∧ index ≥ 0 then
    GetOutDeviceName drv (w.active_out_handles.getD (intToSizeT win64 index) 0) w
  else
    (NO_DEVICE_AT_INDEX, w)

/-- The `DWORD` whose four bytes in memory are `b0 b1 b2 b3` on the little-endian
target. -/
def dwordOfBytes (b0 b1 b2 b3 : Nat) : Nat :=
  b0 % 2 ^ 8 + 2 ^ 8 * (b1 % 2 ^ 8) + 2 ^ 16 * (b2 % 2 ^ 8) + 2 ^ 24 * (b3 % 2 ^ 8)

/-- `SendToDevice`: the packet bytes are status, data1, data2, 0; the packet goes
to `midiOutShortMsg` and the decimal result code is returned. -/
def SendToDevice {D : Type} (drv : Driver D) (device aStatus aData1 aData2 : Nat) (w : World D) :
    String × World D :=
  let packet := dwordOfBytes aStatus aData1 aData2 0
  let r := drv.midiOutShortMsg w.driver device packet
  (toString r.1,
    { w with driver := r.2, calls := w.calls ++ [DriverCall.midiOutShortMsg device packet] })

/-- `MidiJackDequeueIncomingData`: refresh, then 0 on an empty queue, else pop
the front message and return its encoding. -/
def MidiJackDequeueIncomingData {D : Type} (drv : Driver D) (w : World D) : Nat × World D :=
  let w1 := RefreshDevices drv w
  match w1.message_queue with
  | [] => (0, w1)
  | msg :: rest => (msg.Encode64Bit, { w1 with message_queue := rest })

/-- A `const char*` handed to the caller.  `buffer` is the content of the
`std::string` whose `c_str()` was taken; `ownerAlive` tells whether that
`std::string` still exists once the function has returned: a `static` one does,
a local one is destroyed at the return. -/
structure CharPtr where
  buffer : String
  ownerAlive : Bool
  deriving DecidableEq, Repr

/-- The C string held in a buffer: the characters before the first NUL. -/
def cString (s : String) : String :=
  String.mk (s.toList.takeWhile (fun c => c != Char.ofNat 0))

/-- What the caller reads through the pointer: the C string while the owning
`std::string` is alive; once the owner is destroyed the pointer dangles and no
content is defined. -/
def CharPtr.read (p : CharPtr) : Option String :=
  if p.ownerAlive then some (cString p.buffer) else none

/-- `MidiJackSendToDevice`: look the name up into the local `std::string result`,
send unless the name is the no-device string, and return `result.c_str()`.
`result` is a local variable, destroyed when the function returns. -/
def MidiJackSendToDevice {D : Type} (drv : Driver D) (win64 : Bool) (deviceID : Int)
    (aStatus aData1 aData2 : Nat) (w : World D) : CharPtr × World D :=
  let r := GetOutDeviceAtIndex drv win64 deviceID w
  if r.1 ≠ NO_DEVICE_AT_INDEX then
    let s := SendToDevice drv (r.2.active_out_handles.getD (intToSizeT win64 deviceID) 0)
      aStatus aData1 aData2 r.2
    ({ buffer := r.1, ownerAlive := false }, s.2)
  else
    ({ buffer := r.1, ownerAlive := false }, r.2)

/-- The loop `for (handle : active_out_handles) names.append(GetOutDeviceName(handle) + ",")`
over the handles still to visit. -/
def appendOutNames {D : Type} (drv : Driver D) : List Nat → String → World D → String × World D
  | [], names, w => (names, w)
  | handle :: rest, names, w =>
    let r := GetOutDeviceName drv handle w
    appendOutNames drv rest (names ++ (r.1 ++ ",")) r.2

/-- `MidiJackGetOutDevices`: open all output devices, collect their names into the
`static std::string names` and return `names.c_str()`. -/
def MidiJackGetOutDevices {D : Type} (drv : Driver D) (w : World D) : CharPtr × World D :=
  let w1 := OpenAllOutDevices drv w
  let r := appendOutNames drv w1.active_out_handles "" w1
  ({ buffer := r.1, ownerAlive := true }, r.2)

/-! ## Runs of calls -/

/-- The data notifications `(handle, dwParam1)` delivered one after another. -/
def notifyAll {D : Type} (win64 : Bool) : List (Nat × Nat) → World D → World D
  | [], w => w
  | (h, r) :: rest, w => notifyAll win64 rest (MidiInProc win64 h InMsg.MIM_DATA r w)

/-- The values returned by `n` successive calls of `MidiJackDequeueIncomingData`,
with the state they leave. -/
def dequeueMany {D : Type} (drv : Driver D) : Nat → World D → List Nat × World D
  | 0, w => ([], w)
  | n + 1, w =>
    let r := MidiJackDequeueIncomingData drv w
    let rs := dequeueMany drv n r.2
    (r.1 :: rs.1, rs.2)

/-- A driver without devices: every open fails and both counts are 0. -/
def noDevices : Driver Unit :=
  { midiInOpen := fun d _ => (none, d)
    midiInStart := fun d _ => (false, d)
    midiInClose := fun d _ => d
    midiOutOpen := fun d _ => (none, d)
    midiOutReset := fun d _ => d
    midiOutClose := fun d _ => d
    midiInGetNumDevs := fun d => (0, d)
    midiOutGetNumDevs := fun d => (0, d)
    midiOutGetDevCaps := fun d _ => (none, d)
    midiOutShortMsg := fun d _ _ => (0, d) }

/-- A driver with `nIn` input devices, whose handles are 100, 101, ..., and `nOut`
output devices, whose handles are 200, 201, ...; every start succeeds. -/
def someDevices (nIn nOut : Nat) : Driver Unit :=
  { noDevices with
    midiInOpen := fun d i => (if i < nIn then some (100 + i) else none, d)
    midiInStart := fun d _ => (true, d)
    midiOutOpen := fun d i => (if i < nOut then some (200 + i) else none, d)
    midiInGetNumDevs := fun d => (nIn, d)
    midiOutGetNumDevs := fun d => (nOut, d) }

/-- A driver with one output device: every output open succeeds with the handle
`handle`, and the device reports the wide name `szPname`. -/
def oneOutDevice (handle : Nat) (szPname : List Nat) : Driver Unit :=
  { noDevices with
    midiOutOpen := fun d _ => (some handle, d)
    midiOutGetNumDevs := fun d => (1, d)
    midiOutGetDevCaps := fun d _ => (some szPname, d) }

/-- The wide characters of a narrow string. -/
def widen (s : String) : List Nat := s.toList.map Char.toNat

/-- The state at process start: every collection empty, no driver call made. -/
def start {D : Type} (d : D) : World D :=
  { message_queue := []
    active_in_handles := []
    active_out_handles := []
    in_handles_to_close := []
    out_handles_to_close := []
    driver := d
    calls := [] }


/-! ## The message queue is touched only by data notifications and dequeues -/

theorem new_mod (s r : Nat) : MidiMessage.new s (r % 2 ^ 32) = MidiMessage.new s r := by
  simp [MidiMessage.new]

theorem OpenInDevice_queue {D : Type} (drv : Driver D) (i : Nat) (w : World D) :
    (OpenInDevice drv i w).message_queue = w.message_queue := by
  unfold OpenInDevice
  dsimp only
  split
  · split <;> rfl
  · rfl

theorem OpenOutDevice_queue {D : Type} (drv : Driver D) (i : Nat) (w : World D) :
    (OpenOutDevice drv i w).message_queue = w.message_queue := by
  unfold OpenOutDevice
  dsimp only
  split
  · split <;> rfl
  · rfl

theorem openInLoop_queue {D : Type} (drv : Driver D) (k i : Nat) (w : World D) :
    (openInLoop drv k i w).message_queue = w.message_queue := by
  induction k generalizing i w with
  | zero => rfl
  | succ k ih => rw [openInLoop, ih, OpenInDevice_queue]

theorem openOutLoop_queue {D : Type} (drv : Driver D) (k i : Nat) (w : World D) :
    (openOutLoop drv k i w).message_queue = w.message_queue := by
  induction k generalizing i w with
  | zero => rfl
  | succ k ih => rw [openOutLoop, ih, OpenOutDevice_queue]

theorem OpenAllInDevices_queue {D : Type} (drv : Driver D) (w : World D) :
    (OpenAllInDevices drv w).message_queue = w.message_queue := by
  simp [OpenAllInDevices, openInLoop_queue]

theorem OpenAllOutDevices_queue {D : Type} (drv : Driver D) (w : World D) :
    (OpenAllOutDevices drv w).message_queue = w.message_queue := by
  simp [OpenAllOutDevices, openOutLoop_queue]

theorem closePendingIn_queue {D : Type} (drv : Driver D) (fuel : Nat) (w : World D) :
    (closePendingIn drv fuel w).message_queue = w.message_queue := by
  induction fuel generalizing w with
  | zero => rfl
  | succ k ih =>
    unfold closePendingIn
    split
    · rfl
    · rw [ih]; rfl

theorem closePendingOut_queue {D : Type} (drv : Driver D) (fuel : Nat) (w : World D) :
    (closePendingOut drv fuel w).message_queue = w.message_queue := by
  induction fuel generalizing w with
  | zero => rfl
  | succ k ih =>
    unfold closePendingOut
    split
    · rfl
    · rw [ih]; rfl

theorem RefreshDevices_queue {D : Type} (drv : Driver D) (w : World D) :
    (RefreshDevices drv w).message_queue = w.message_queue := by
  simp [RefreshDevices, OpenAllOutDevices_queue, OpenAllInDevices_queue,
    closePendingOut_queue, closePendingIn_queue]

theorem closeAllIn_queue {D : Type} (drv : Driver D) (fuel : Nat) (w : World D) :
    (closeAllIn drv fuel w).message_queue = w.message_queue := by
  induction fuel generalizing w with
  | zero => rfl
  | succ k ih =>
    unfold closeAllIn
    split
    · rfl
    · rw [ih]; rfl

theorem closeAllOutLoop_queue {D : Type} (drv : Driver D) (k i : Nat) (buf : List Nat)
    (w : World D) : (closeAllOutLoop drv k i buf w).message_queue = w.message_queue := by
  induction k generalizing i buf w with
  | zero => rfl
  | succ k ih => rw [closeAllOutLoop, ih]; rfl

theorem CloseAllDevices_queue {D : Type} (drv : Driver D) (w : World D) :
    (CloseAllDevices drv w).message_queue = w.message_queue := by
  simp [CloseAllDevices, closeAllOutLoop_queue, closeAllIn_queue]

theorem dequeue_nil {D : Type} (drv : Driver D) (w : World D) (hq : w.message_queue = []) :
    (MidiJackDequeueIncomingData drv w).1 = 0 ∧
      (MidiJackDequeueIncomingData drv w).2.message_queue = [] := by
  have h := RefreshDevices_queue drv w
  rw [hq] at h
  unfold MidiJackDequeueIncomingData
  simp only
  split
  · exact ⟨rfl, h⟩
  · next m rest hm => rw [hm] at h; cases h

theorem dequeue_cons {D : Type} (drv : Driver D) (w : World D) (m : MidiMessage)
    (rest : List MidiMessage) (hq : w.message_queue = m :: rest) :
    (MidiJackDequeueIncomingData drv w).1 = m.Encode64Bit ∧
      (MidiJackDequeueIncomingData drv w).2.message_queue = rest := by
  have h := RefreshDevices_queue drv w
  rw [hq] at h
  unfold MidiJackDequeueIncomingData
  simp only
  split
  · next hm => rw [hm] at h; cases h
  · next m' rest' hm =>
    rw [hm] at h
    cases h
    exact ⟨rfl, rfl⟩

theorem dequeueMany_queue {D : Type} (drv : Driver D) (q : List MidiMessage) (w : World D)
    (hq : w.message_queue = q) :
    (dequeueMany drv q.length w).1 = q.map MidiMessage.Encode64Bit ∧
      (dequeueMany drv q.length w).2.message_queue = [] := by
  induction q generalizing w with
  | nil => exact ⟨rfl, hq⟩
  | cons m rest ih =>
    have h := dequeue_cons drv w m rest hq
    have h2 := ih (MidiJackDequeueIncomingData drv w).2 h.2
    simp only [List.length_cons, dequeueMany, List.map_cons]
    exact ⟨by rw [h.1, h2.1], h2.2⟩

theorem notifyAll_queue {D : Type} (win64 : Bool) (ns : List (Nat × Nat)) (w : World D) :
    (notifyAll win64 ns w).message_queue =
      w.message_queue ++ ns.map (fun p => MidiMessage.new (DeviceHandleToID win64 p.1) p.2) := by
  induction ns generalizing w with
  | nil => simp [notifyAll]
  | cons p rest ih =>
    obtain ⟨h, r⟩ := p
    rw [notifyAll, ih]
    simp only [MidiInProc, ↓reduceIte, new_mod, List.map_cons, List.append_assoc,
      List.singleton_append]


/-! ## Layout of the packed value -/

theorem encode_fields (a b c d : Nat) (ha : a < 2 ^ 32) (hb : b < 2 ^ 8) (hc : c < 2 ^ 8)
    (hd : d < 2 ^ 8) :
    MidiMessage.Encode64Bit ⟨a, b, c, d⟩ = a + 2 ^ 32 * b + 2 ^ 40 * c + 2 ^ 48 * d := by
  have e1 : a ||| 2 ^ 32 * b = 2 ^ 32 * b + a := by
    rw [Nat.lor_comm]; exact (Nat.mul_add_lt_is_or ha b).symm
  have e2 : (2 ^ 32 * b + a) ||| 2 ^ 40 * c = 2 ^ 40 * c + (2 ^ 32 * b + a) := by
    rw [Nat.lor_comm]; exact (Nat.mul_add_lt_is_or (by omega) c).symm
  have e3 : (2 ^ 40 * c + (2 ^ 32 * b + a)) ||| 2 ^ 48 * d
      = 2 ^ 48 * d + (2 ^ 40 * c + (2 ^ 32 * b + a)) := by
    rw [Nat.lor_comm]; exact (Nat.mul_add_lt_is_or (by omega) d).symm
  simp only [MidiMessage.Encode64Bit, Nat.shiftLeft_eq]
  rw [Nat.mod_eq_of_lt (by omega : a < 2 ^ 64), Nat.mod_eq_of_lt (by omega : b * 2 ^ 32 < 2 ^ 64),
    Nat.mod_eq_of_lt (by omega : c * 2 ^ 40 < 2 ^ 64),
    Nat.mod_eq_of_lt (by omega : d * 2 ^ 48 < 2 ^ 64),
    Nat.mul_comm b, Nat.mul_comm c, Nat.mul_comm d, e1, e2, e3]
  omega

theorem new_fields (s r : Nat) (hs : s < 2 ^ 32) (hr : r < 2 ^ 32) :
    MidiMessage.new s r = ⟨s, r % 256, (r / 2 ^ 8) % 256, (r / 2 ^ 16) % 256⟩ := by
  simp only [MidiMessage.new, Nat.shiftRight_eq_div_pow, Nat.mod_eq_of_lt hs, Nat.mod_eq_of_lt hr]
  norm_num

theorem encode_new (s r : Nat) (hs : s < 2 ^ 32) (hr : r < 2 ^ 32) :
    (MidiMessage.new s r).Encode64Bit
      = s + 2 ^ 32 * (r % 256) + 2 ^ 40 * ((r / 2 ^ 8) % 256) + 2 ^ 48 * ((r / 2 ^ 16) % 256) := by
  rw [new_fields s r hs hr]
  exact encode_fields _ _ _ _ hs (Nat.mod_lt _ (by norm_num)) (Nat.mod_lt _ (by norm_num))
    (Nat.mod_lt _ (by norm_num))

/-- C2: for a 32-bit source `s` and a 32-bit raw word `r`, the packed value of
`MidiMessage(s, r)` is `s + 2^32 * status + 2^40 * data1 + 2^48 * data2` with status,
data1, data2 the bytes 0, 1, 2 of `r`; it is below `2^56` (bits 56-63 are zero), and
two raw words that agree on their low 24 bits give the same value. -/
theorem C2_encode_layout (s r : Nat) (hs : s < 2 ^ 32) (hr : r < 2 ^ 32) :
    (MidiMessage.new s r).Encode64Bit
        = s + 2 ^ 32 * (r % 256) + 2 ^ 40 * ((r / 2 ^ 8) % 256) + 2 ^ 48 * ((r / 2 ^ 16) % 256)
      ∧ (MidiMessage.new s r).source_ = s
      ∧ (MidiMessage.new s r).status_ = r % 256
      ∧ (MidiMessage.new s r).data1_ = (r / 2 ^ 8) % 256
      ∧ (MidiMessage.new s r).data2_ = (r / 2 ^ 16) % 256
      ∧ (MidiMessage.new s r).Encode64Bit < 2 ^ 56
      ∧ ∀ r2 : Nat, r2 < 2 ^ 32 → r2 % 2 ^ 24 = r % 2 ^ 24 →
          (MidiMessage.new s r2).Encode64Bit = (MidiMessage.new s r).Encode64Bit := by
  have hn := new_fields s r hs hr
  refine ⟨encode_new s r hs hr, by rw [hn], by rw [hn], by rw [hn], by rw [hn], ?_, ?_⟩
  · rw [encode_new s r hs hr]
    have h1 := Nat.mod_lt r (by norm_num : 256 > 0)
    have h2 := Nat.mod_lt (r / 2 ^ 8) (by norm_num : 256 > 0)
    have h3 := Nat.mod_lt (r / 2 ^ 16) (by norm_num : 256 > 0)
    omega
  · intro r2 hr2 h
    rw [encode_new s r hs hr, encode_new s r2 hs hr2]
    omega


/-- Witness of `C2_encode_layout`: source id 7 and raw word 0x403C90. -/
theorem C2_encode_layout_witness :
    (7 : Nat) < 2 ^ 32 ∧ (0x403C90 : Nat) < 2 ^ 32
      ∧ (MidiMessage.new 7 0x403C90).Encode64Bit
        = 7 + 2 ^ 32 * (0x403C90 % 256) + 2 ^ 40 * ((0x403C90 / 2 ^ 8) % 256)
          + 2 ^ 48 * ((0x403C90 / 2 ^ 16) % 256) :=
  ⟨by norm_num, by norm_num, (C2_encode_layout 7 0x403C90 (by norm_num) (by norm_num)).1⟩

/-! ## Device ids -/

/-- C3, as stated, fails: with `_WIN64` the handle `2^32` fits the pointer width and
comes back as 0. -/
theorem C3_counterexample :
    ¬ (∀ (win64 : Bool) (h : Nat), h < 2 ^ pointerBits win64 →
        DeviceIDToHandle win64 (DeviceHandleToID win64 h) = h) := by
  intro hall
  have h := hall true (2 ^ 32) (by decide)
  revert h
  decide

/-- C3, amended: for every handle `h` representable on the pointer width, going to the
id and back gives `h mod 2^32`, which is `h` exactly when `h < 2^32`. -/
theorem C3_roundtrip (win64 : Bool) (h : Nat) (hh : h < 2 ^ pointerBits win64) :
    DeviceIDToHandle win64 (DeviceHandleToID win64 h) = h % 2 ^ 32
      ∧ (DeviceIDToHandle win64 (DeviceHandleToID win64 h) = h ↔ h < 2 ^ 32) := by
  cases win64
  · simp only [pointerBits, Bool.false_eq_true, ↓reduceIte] at hh
    simp only [DeviceIDToHandle, DeviceHandleToID, Bool.false_eq_true, ↓reduceIte]
    omega
  · simp only [pointerBits, ↓reduceIte] at hh
    simp only [DeviceIDToHandle, DeviceHandleToID, ↓reduceIte]
    omega

/-- Witness of `C3_roundtrip` at the 64-bit handle 5. -/
theorem C3_roundtrip_witness :
    5 < 2 ^ pointerBits true ∧ DeviceIDToHandle true (DeviceHandleToID true 5) = 5 % 2 ^ 32 :=
  ⟨by decide, (C3_roundtrip true 5 (by decide)).1⟩

/-! ## Dequeue -/

theorem new_norm (s r : Nat) : MidiMessage.new s r = MidiMessage.new (s % 2 ^ 32) (r % 2 ^ 32) := by
  simp [MidiMessage.new]

theorem encode_new_zero_iff (s r : Nat) :
    (MidiMessage.new s r).Encode64Bit = 0 ↔ s % 2 ^ 32 = 0 ∧ r % 2 ^ 24 = 0 := by
  rw [new_norm, encode_new _ _ (Nat.mod_lt _ (by norm_num)) (Nat.mod_lt _ (by norm_num))]
  omega

/-- C10, as stated, fails: after one data notification from the 64-bit handle `2^32`
with raw word 0 the queue is not empty, and the dequeue returns 0. -/
theorem C10_counterexample :
    (MidiInProc true (2 ^ 32) InMsg.MIM_DATA 0 (start ())).message_queue ≠ []
      ∧ (MidiJackDequeueIncomingData noDevices
          (MidiInProc true (2 ^ 32) InMsg.MIM_DATA 0 (start ()))).1 = 0 := by
  decide

/-- C10, amended: on an empty queue the dequeue returns 0 and leaves the queue empty;
on a queue whose oldest message is `MidiMessage(s, r)` it returns the packed encoding
of that message and leaves the remaining messages in their order; that value is 0
exactly when the source id and the three bytes are all 0. -/
theorem C10_dequeue {D : Type} (drv : Driver D) (w : World D) :
    (w.message_queue = [] →
        (MidiJackDequeueIncomingData drv w).1 = 0
          ∧ (MidiJackDequeueIncomingData drv w).2.message_queue = [])
      ∧ (∀ (s r : Nat) (rest : List MidiMessage),
          w.message_queue = MidiMessage.new s r :: rest →
            (MidiJackDequeueIncomingData drv w).1 = (MidiMessage.new s r).Encode64Bit
              ∧ (MidiJackDequeueIncomingData drv w).2.message_queue = rest
              ∧ ((MidiJackDequeueIncomingData drv w).1 = 0 ↔ s % 2 ^ 32 = 0 ∧ r % 2 ^ 24 = 0)) := by
  refine ⟨dequeue_nil drv w, ?_⟩
  intro s r rest hq
  have h := dequeue_cons drv w _ rest hq
  refine ⟨h.1, h.2, ?_⟩
  rw [h.1]
  exact encode_new_zero_iff s r

/-- Witness of `C10_dequeue`: a queue holding the messages of raw words 0x904000 and
0x3C80 from ids 7 and 1. -/
theorem C10_dequeue_witness :
    (MidiJackDequeueIncomingData noDevices
        { start () with message_queue := [MidiMessage.new 7 0x904000, MidiMessage.new 1 0x3C80] }).1
        = (MidiMessage.new 7 0x904000).Encode64Bit
      ∧ (MidiJackDequeueIncomingData noDevices (start ())).1 = 0 :=
  ⟨((C10_dequeue noDevices
      { start () with message_queue := [MidiMessage.new 7 0x904000, MidiMessage.new 1 0x3C80] }).2
      7 0x904000 [MidiMessage.new 1 0x3C80] rfl).1,
   ((C10_dequeue noDevices (start ())).1 rfl).1⟩

theorem dequeueMany_snoc {D : Type} (drv : Driver D) (n : Nat) (w : World D) :
    (dequeueMany drv (n + 1) w).1
      = (dequeueMany drv n w).1 ++ [(MidiJackDequeueIncomingData drv (dequeueMany drv n w).2).1] := by
  induction n generalizing w with
  | zero => rfl
  | succ n ih =>
    rw [dequeueMany]
    simp only
    rw [ih]
    rfl

/-- C1, as stated, fails: from the empty start state, two data notifications from the
handle 7 with raw words 0x904000 and 0x803C00 are not dequeued as 0x0000904000000007,
0x0000803C00000007, 0. -/
theorem C1_counterexample :
    DeviceHandleToID true 7 = 7
      ∧ (dequeueMany noDevices 3
          (notifyAll true [(7, 0x904000), (7, 0x803C00)] (start ()))).1
        ≠ [0x0000904000000007, 0x0000803C00000007, 0] := by
  decide

/-- C1, amended: with an empty queue, after two data notifications from a handle whose
id is 7 with raw words 0x904000 and 0x803C00, three dequeues return
0x0090400000000007, then 0x00803C0000000007, then 0, whatever the driver does. -/
theorem C1_example {D : Type} (drv : Driver D) (win64 : Bool) (w : World D) (h : Nat)
    (hid : DeviceHandleToID win64 h = 7) (hq : w.message_queue = []) :
    (dequeueMany drv 3 (notifyAll win64 [(h, 0x904000), (h, 0x803C00)] w)).1
      = [0x0090400000000007, 0x00803C0000000007, 0] := by
  have hn := notifyAll_queue win64 [(h, 0x904000), (h, 0x803C00)] w
  simp only [hq, List.nil_append, List.map_cons, List.map_nil, hid] at hn
  have h2 : (dequeueMany drv 2 (notifyAll win64 [(h, 0x904000), (h, 0x803C00)] w)).1
        = [(MidiMessage.new 7 0x904000).Encode64Bit, (MidiMessage.new 7 0x803C00).Encode64Bit]
      ∧ (dequeueMany drv 2
          (notifyAll win64 [(h, 0x904000), (h, 0x803C00)] w)).2.message_queue = [] :=
    dequeueMany_queue drv _ _ hn
  have h3 := dequeue_nil drv _ h2.2
  rw [dequeueMany_snoc, h3.1, h2.1]
  rfl

/-- Witness of `C1_example`: the 64-bit handle 7 and the driver without devices. -/
theorem C1_example_witness :
    DeviceHandleToID true 7 = 7 ∧ (start ()).message_queue = []
      ∧ (dequeueMany noDevices 3 (notifyAll true [(7, 0x904000), (7, 0x803C00)] (start ()))).1
        = [0x0090400000000007, 0x00803C0000000007, 0] :=
  ⟨by decide, rfl, C1_example noDevices true (start ()) 7 (by decide) rfl⟩

/-! ## First in, first out -/

/-- C5: after the data notifications `(h_1, r_1), ..., (h_n, r_n)` delivered one after
another to a state with an empty queue, the next `n` dequeues return the encodings of
`MidiMessage(DeviceHandleToID(h_i), r_i)` in that order, the queue is then empty and
one more dequeue returns 0, whatever the driver does; and no refresh, close
notification, open, close or close-all changes the queue. -/
theorem C5_fifo {D : Type} (drv : Driver D) (win64 : Bool) (w : World D)
    (ns : List (Nat × Nat)) (hq : w.message_queue = []) :
    (dequeueMany drv ns.length (notifyAll win64 ns w)).1
        = ns.map (fun p => (MidiMessage.new (DeviceHandleToID win64 p.1) p.2).Encode64Bit)
      ∧ (dequeueMany drv ns.length (notifyAll win64 ns w)).2.message_queue = []
      ∧ (MidiJackDequeueIncomingData drv
          (dequeueMany drv ns.length (notifyAll win64 ns w)).2).1 = 0
      ∧ (∀ (v : World D) (h i : Nat) (m : OutMsg),
          (RefreshDevices drv v).message_queue = v.message_queue
            ∧ (MidiInProc win64 h InMsg.MIM_CLOSE i v).message_queue = v.message_queue
            ∧ (MidiOutProc h m v).message_queue = v.message_queue
            ∧ (OpenInDevice drv i v).message_queue = v.message_queue
            ∧ (OpenOutDevice drv i v).message_queue = v.message_queue
            ∧ (OpenAllInDevices drv v).message_queue = v.message_queue
            ∧ (OpenAllOutDevices drv v).message_queue = v.message_queue
            ∧ (CloseInDevice drv h v).message_queue = v.message_queue
            ∧ (CloseOutDevice drv h v).message_queue = v.message_queue
            ∧ (CloseAllDevices drv v).message_queue = v.message_queue) := by
  have hn := notifyAll_queue win64 ns w
  rw [hq, List.nil_append] at hn
  have h2 := dequeueMany_queue drv _ _ hn
  rw [List.length_map, List.map_map] at h2
  refine ⟨h2.1, h2.2, (dequeue_nil drv _ h2.2).1, ?_⟩
  intro v h i m
  refine ⟨RefreshDevices_queue drv v, rfl, ?_, OpenInDevice_queue drv i v,
    OpenOutDevice_queue drv i v, OpenAllInDevices_queue drv v, OpenAllOutDevices_queue drv v,
    rfl, rfl, CloseAllDevices_queue drv v⟩
  unfold MidiOutProc
  split <;> rfl

/-- Witness of `C5_fifo`: three notifications from two handles. -/
theorem C5_fifo_witness :
    (start ()).message_queue = []
      ∧ (dequeueMany noDevices 3
          (notifyAll true [(7, 0x403C90), (9, 0x7F), (7, 0x3C80)] (start ()))).1
        = [(MidiMessage.new 7 0x403C90).Encode64Bit, (MidiMessage.new 9 0x7F).Encode64Bit,
            (MidiMessage.new 7 0x3C80).Encode64Bit] :=
  ⟨rfl, (C5_fifo noDevices true (start ()) [(7, 0x403C90), (9, 0x7F), (7, 0x3C80)] rfl).1⟩


/-! ## Closing everything -/

theorem closeAllIn_active_in {D : Type} (drv : Driver D) (fuel : Nat) (w : World D)
    (hf : w.active_in_handles.length ≤ fuel) :
    (closeAllIn drv fuel w).active_in_handles = [] := by
  induction fuel generalizing w with
  | zero =>
    rw [closeAllIn]
    exact List.length_eq_zero.mp (Nat.le_zero.mp hf)
  | succ k ih =>
    unfold closeAllIn
    split
    · assumption
    · next front rest hw =>
      apply ih
      have hlen : ((front :: rest).filter (fun x => x != front)).length ≤ rest.length := by
        rw [List.filter_cons_of_neg (by simp)]
        exact List.length_filter_le _ _
      rw [hw] at hf
      simp only [List.length_cons] at hf
      simp only [CloseInDevice, hw]
      omega

theorem closeAllIn_pending {D : Type} (drv : Driver D) (fuel : Nat) (w : World D) :
    (closeAllIn drv fuel w).in_handles_to_close = w.in_handles_to_close
      ∧ (closeAllIn drv fuel w).out_handles_to_close = w.out_handles_to_close := by
  induction fuel generalizing w with
  | zero => exact ⟨rfl, rfl⟩
  | succ k ih =>
    unfold closeAllIn
    split
    · exact ⟨rfl, rfl⟩
    · exact ih _

theorem closeAllOutLoop_others {D : Type} (drv : Driver D) (k i : Nat) (buf : List Nat)
    (w : World D) :
    (closeAllOutLoop drv k i buf w).active_in_handles = w.active_in_handles
      ∧ (closeAllOutLoop drv k i buf w).in_handles_to_close = w.in_handles_to_close
      ∧ (closeAllOutLoop drv k i buf w).out_handles_to_close = w.out_handles_to_close := by
  induction k generalizing i buf w with
  | zero => exact ⟨rfl, rfl, rfl⟩
  | succ k ih =>
    rw [closeAllOutLoop]
    exact ih _ _ _

/-- The part of `CloseAllDevices` that works: the input loop stops with
`active_in_handles` empty, and neither pending-close stack changes. -/
theorem CloseAllDevices_inputs {D : Type} (drv : Driver D) (w : World D) :
    (CloseAllDevices drv w).active_in_handles = []
      ∧ (CloseAllDevices drv w).in_handles_to_close = w.in_handles_to_close
      ∧ (CloseAllDevices drv w).out_handles_to_close = w.out_handles_to_close := by
  unfold CloseAllDevices
  have h := closeAllOutLoop_others drv
    (closeAllIn drv w.active_in_handles.length w).active_out_handles.length 0
    (closeAllIn drv w.active_in_handles.length w).active_out_handles
    (closeAllIn drv w.active_in_handles.length w)
  have hp := closeAllIn_pending drv w.active_in_handles.length w
  refine ⟨?_, ?_, ?_⟩
  · rw [h.1]; exact closeAllIn_active_in drv _ w (Nat.le_refl _)
  · rw [h.2.1]; exact hp.1
  · rw [h.2.2]; exact hp.2

/-- C4, the code at the failing input: with the three output handles 1, 2, 3 open,
`CloseAllDevices` resets and closes 1, then 3, then 3 again, never 2, and returns with
2 still in `active_out_handles`. -/
theorem C4_close_all_skips :
    (CloseAllDevices noDevices { start () with active_out_handles := [1, 2, 3] }).active_out_handles
        = [2]
      ∧ (CloseAllDevices noDevices { start () with active_out_handles := [1, 2, 3] }).calls
        = [DriverCall.midiOutReset 1, DriverCall.midiOutClose 1, DriverCall.midiOutReset 3,
            DriverCall.midiOutClose 3, DriverCall.midiOutReset 3, DriverCall.midiOutClose 3] := by
  decide

/-! ## Opening an output device -/

theorem OpenOutDevice_active_out {D : Type} (drv : Driver D) (i : Nat) (w : World D) :
    (OpenOutDevice drv i w).active_out_handles
      = w.active_out_handles.filter (fun x => x != 0)
        ++ (match (drv.midiOutOpen w.driver i).1 with
            | some handle =>
              if handle ∈ w.active_out_handles.filter (fun x => x != 0) then [] else [handle]
            | none => []) := by
  unfold OpenOutDevice
  simp only [ClearEmptyOutHandles]
  split
  · split <;> simp
  · simp

/-- C7: from a state whose output collection does not hold the non-null handle `h`,
two successive `OpenOutDevice` calls that both succeed with `h` leave `h` exactly once
in the collection, the second call changing nothing.  For every call: the collection
afterwards is the former one without its null entries, in the same order, followed by
at most one new handle that was not among them; so no handle that occurred at most
once occurs twice. -/
theorem C7_open_out_once {D : Type} (drv : Driver D) (w : World D) (i j h : Nat)
    (hne : h ≠ 0) (hnot : h ∉ w.active_out_handles)
    (h1 : (drv.midiOutOpen w.driver i).1 = some h)
    (h2 : (drv.midiOutOpen (OpenOutDevice drv i w).driver j).1 = some h) :
    (OpenOutDevice drv j (OpenOutDevice drv i w)).active_out_handles.count h = 1
      ∧ (OpenOutDevice drv j (OpenOutDevice drv i w)).active_out_handles
        = (OpenOutDevice drv i w).active_out_handles
      ∧ (∀ (v : World D) (k : Nat), ∃ added : List Nat,
          (OpenOutDevice drv k v).active_out_handles
              = v.active_out_handles.filter (fun x => x != 0) ++ added
            ∧ added.length ≤ 1
            ∧ (∀ x ∈ added, x ∉ v.active_out_handles.filter (fun x => x != 0))
            ∧ (∀ x, (OpenOutDevice drv k v).active_out_handles.count x
                ≤ max 1 (v.active_out_handles.count x))) := by
  have hnot2 : h ∉ w.active_out_handles.filter (fun x => x != 0) :=
    fun hm => hnot (List.mem_filter.mp hm).1
  have e1 : (OpenOutDevice drv i w).active_out_handles
      = w.active_out_handles.filter (fun x => x != 0) ++ [h] := by
    rw [OpenOutDevice_active_out, h1]
    simp only [hnot2, ↓reduceIte]
  have hfil : (w.active_out_handles.filter (fun x => x != 0) ++ [h]).filter (fun x => x != 0)
      = w.active_out_handles.filter (fun x => x != 0) ++ [h] := by
    simp [List.filter_append, hne]
  have e2 : (OpenOutDevice drv j (OpenOutDevice drv i w)).active_out_handles
      = w.active_out_handles.filter (fun x => x != 0) ++ [h] := by
    rw [OpenOutDevice_active_out, h2, e1, hfil]
    simp
  refine ⟨?_, by rw [e2, e1], ?_⟩
  · rw [e2, List.count_append, List.count_eq_zero_of_not_mem hnot2]
    simp
  · intro v k
    rw [OpenOutDevice_active_out]
    have hle : ∀ x, (v.active_out_handles.filter (fun x => x != 0)).count x
        ≤ v.active_out_handles.count x :=
      fun x => (List.filter_sublist v.active_out_handles).count_le x
    cases hk : (drv.midiOutOpen v.driver k).1 with
    | none =>
      refine ⟨[], rfl, by simp, by simp, ?_⟩
      intro x
      have := hle x
      simp only [List.append_nil]
      omega
    | some g =>
      simp only
      by_cases hg : g ∈ v.active_out_handles.filter (fun x => x != 0)
      · refine ⟨[], by simp [hg], by simp, by simp, ?_⟩
        intro x
        have := hle x
        simp only [hg, ↓reduceIte, List.append_nil]
        omega
      · refine ⟨[g], by simp [hg], by simp, by simpa using hg, ?_⟩
        intro x
        have := hle x
        simp only [hg, ↓reduceIte, List.count_append]
        by_cases hx : x = g
        · subst hx
          rw [List.count_eq_zero_of_not_mem hg]
          simp
        · have : [g].count x = 0 := by
            simp [List.count_cons, Ne.symm hx]
          omega


/-- Witness of `C7_open_out_once`: the handle 5 opened twice into a collection that
holds 3 and two null entries. -/
theorem C7_open_out_once_witness :
    (5 : Nat) ≠ 0 ∧ 5 ∉ [0, 3, 0]
      ∧ (OpenOutDevice (oneOutDevice 5 []) 1
          (OpenOutDevice (oneOutDevice 5 []) 0
            { start () with active_out_handles := [0, 3, 0] })).active_out_handles.count 5 = 1 :=
  ⟨by decide, by decide,
    (C7_open_out_once (oneOutDevice 5 []) { start () with active_out_handles := [0, 3, 0] }
      0 1 5 (by decide) (by decide) rfl rfl).1⟩

/-! ## Sending -/

theorem intToSizeT_of_nonneg (win64 : Bool) (idx : Int) (h0 : 0 ≤ idx) (h31 : idx < 2 ^ 31) :
    intToSizeT win64 idx = idx.toNat := by
  unfold intToSizeT
  congr 1
  apply Int.emod_eq_of_lt h0
  cases win64 <;> simp only [pointerBits, Bool.false_eq_true, ↓reduceIte] <;> omega

/-- The pointer `MidiJackSendToDevice` returns always dangles: its owner is the local
`result`, so the caller has no defined content to read, whatever the arguments. -/
theorem send_result_dangles {D : Type} (drv : Driver D) (win64 : Bool) (w : World D) (idx : Int)
    (aStatus aData1 aData2 : Nat) :
    (MidiJackSendToDevice drv win64 idx aStatus aData1 aData2 w).1.ownerAlive = false
      ∧ (MidiJackSendToDevice drv win64 idx aStatus aData1 aData2 w).1.read = none := by
  unfold MidiJackSendToDevice
  dsimp only
  split <;> exact ⟨rfl, rfl⟩

/-- The pointer `MidiJackGetOutDevices` returns is owned by a `static` string: the
caller reads the C string of the collected names. -/
theorem get_out_devices_result_alive {D : Type} (drv : Driver D) (w : World D) :
    (MidiJackGetOutDevices drv w).1.read
      = some (cString (MidiJackGetOutDevices drv w).1.buffer) := rfl

/-- For a 32-bit signed index that is negative or not below the number of output
handles, `MidiJackSendToDevice` writes `"NO_DEVICE_AT_INDEX"` into `result`, makes no
driver call and leaves the whole state as it was. -/
theorem send_out_of_range {D : Type} (drv : Driver D) (win64 : Bool) (w : World D) (idx : Int)
    (aStatus aData1 aData2 : Nat) (hhi : idx < 2 ^ 31)
    (hout : idx < 0 ∨ (w.active_out_handles.length : Int) ≤ idx) :
    MidiJackSendToDevice drv win64 idx aStatus aData1 aData2 w
      = ({ buffer := "NO_DEVICE_AT_INDEX", ownerAlive := false }, w) := by
  have hcond : ¬ (intToSizeT win64 idx < w.active_out_handles.length ∧ idx ≥ 0) := by
    rintro ⟨hlt, hge⟩
    rw [intToSizeT_of_nonneg win64 idx hge hhi] at hlt
    omega
  have hg : GetOutDeviceAtIndex drv win64 idx w = (NO_DEVICE_AT_INDEX, w) := by
    unfold GetOutDeviceAtIndex
    rw [if_neg hcond]
  unfold MidiJackSendToDevice
  simp only [hg, ne_eq, not_true_eq_false, ↓reduceIte]
  rfl

/-- C8, the code at the failing input: index -1 with the output handles 4 and 9 open.
No driver call is made and the state is unchanged, and `"NO_DEVICE_AT_INDEX"` is written
into the local `result`; but the pointer returned is into that destroyed local, so the
caller reads no defined string. -/
theorem C8_dangling_result :
    MidiJackSendToDevice noDevices true (-1) 0x90 0x3C 0x40
        { start () with active_out_handles := [4, 9] }
        = ({ buffer := "NO_DEVICE_AT_INDEX", ownerAlive := false },
            { start () with active_out_handles := [4, 9] })
      ∧ (MidiJackSendToDevice noDevices true (-1) 0x90 0x3C 0x40
          { start () with active_out_handles := [4, 9] }).1.read = none
      ∧ (MidiJackSendToDevice noDevices true (-1) 0x90 0x3C 0x40
          { start () with active_out_handles := [4, 9] }).1.read ≠ some "NO_DEVICE_AT_INDEX" :=
  ⟨rfl, rfl, by decide⟩

theorem GetOutDeviceName_world {D : Type} (drv : Driver D) (handle : Nat) (w : World D) :
    (GetOutDeviceName drv handle w).2
      = { w with
          driver := (drv.midiOutGetDevCaps w.driver handle).2
          calls := w.calls
            ++ [DriverCall.midiOutGetDevCaps handle (drv.midiOutGetDevCaps w.driver handle).1] } := by
  unfold GetOutDeviceName
  dsimp only
  split <;> rfl

theorem dwordOfBytes_short (s d1 d2 : Nat) (hs : s < 256) (h1 : d1 < 256) (h2 : d2 < 256) :
    dwordOfBytes s d1 d2 0 = s + 2 ^ 8 * d1 + 2 ^ 16 * d2 := by
  unfold dwordOfBytes
  omega

/-- For a 32-bit signed index `idx` with `0 <= idx < size`, `handle` the output handle at
that position and bytes status, data1, data2: `MidiJackSendToDevice` writes the name
`GetOutDeviceName` finds for `handle` into `result` and changes no collection.  When that
name differs from `"NO_DEVICE_AT_INDEX"` the driver calls made are the name query and
then exactly one short message to `handle` with the word
`status + 2^8 * data1 + 2^16 * data2` (byte 3 is 0), from which `MidiMessage` reads the
same status, data1 and data2.  When the name is `"NO_DEVICE_AT_INDEX"` the only driver
call is the name query. -/
theorem send_in_range {D : Type} (drv : Driver D) (win64 : Bool) (w : World D) (idx : Int)
    (handle aStatus aData1 aData2 : Nat) (h0 : 0 ≤ idx) (h31 : idx < 2 ^ 31)
    (hh : w.active_out_handles[idx.toNat]? = some handle)
    (hs : aStatus < 256) (h1 : aData1 < 256) (h2 : aData2 < 256) :
    (MidiJackSendToDevice drv win64 idx aStatus aData1 aData2 w).1.buffer
        = (GetOutDeviceName drv handle w).1
      ∧ ((GetOutDeviceName drv handle w).1 ≠ "NO_DEVICE_AT_INDEX" →
          (MidiJackSendToDevice drv win64 idx aStatus aData1 aData2 w).2.calls
            = w.calls
              ++ [DriverCall.midiOutGetDevCaps handle (drv.midiOutGetDevCaps w.driver handle).1,
                  DriverCall.midiOutShortMsg handle (aStatus + 2 ^ 8 * aData1 + 2 ^ 16 * aData2)])
      ∧ ((GetOutDeviceName drv handle w).1 = "NO_DEVICE_AT_INDEX" →
          (MidiJackSendToDevice drv win64 idx aStatus aData1 aData2 w).2.calls
            = w.calls
              ++ [DriverCall.midiOutGetDevCaps handle (drv.midiOutGetDevCaps w.driver handle).1])
      ∧ (MidiJackSendToDevice drv win64 idx aStatus aData1 aData2 w).2.active_out_handles
        = w.active_out_handles
      ∧ (MidiJackSendToDevice drv win64 idx aStatus aData1 aData2 w).2.active_in_handles
        = w.active_in_handles
      ∧ (MidiJackSendToDevice drv win64 idx aStatus aData1 aData2 w).2.message_queue
        = w.message_queue
      ∧ (MidiJackSendToDevice drv win64 idx aStatus aData1 aData2 w).2.in_handles_to_close
        = w.in_handles_to_close
      ∧ (MidiJackSendToDevice drv win64 idx aStatus aData1 aData2 w).2.out_handles_to_close
        = w.out_handles_to_close
      ∧ (aStatus + 2 ^ 8 * aData1 + 2 ^ 16 * aData2) / 2 ^ 24 % 2 ^ 8 = 0
      ∧ (∀ source : Nat,
          (MidiMessage.new source (aStatus + 2 ^ 8 * aData1 + 2 ^ 16 * aData2)).status_ = aStatus
            ∧ (MidiMessage.new source (aStatus + 2 ^ 8 * aData1 + 2 ^ 16 * aData2)).data1_ = aData1
            ∧ (MidiMessage.new source (aStatus + 2 ^ 8 * aData1 + 2 ^ 16 * aData2)).data2_
              = aData2) := by
  have hsz := intToSizeT_of_nonneg win64 idx h0 h31
  have hlt : idx.toNat < w.active_out_handles.length := by
    rcases List.getElem?_eq_some_iff.mp hh with ⟨hlt, _⟩
    exact hlt
  have hget : w.active_out_handles.getD idx.toNat 0 = handle := by
    rw [List.getD_eq_getElem?_getD, hh]
    rfl
  have hg : GetOutDeviceAtIndex drv win64 idx w = GetOutDeviceName drv handle w := by
    unfold GetOutDeviceAtIndex
    rw [if_pos ⟨by rw [hsz]; exact hlt, h0⟩, hsz, hget]
  have hw := GetOutDeviceName_world drv handle w
  have hpk := dwordOfBytes_short aStatus aData1 aData2 hs h1 h2
  have hres : MidiJackSendToDevice drv win64 idx aStatus aData1 aData2 w
      = if (GetOutDeviceName drv handle w).1 ≠ NO_DEVICE_AT_INDEX then
          ({ buffer := (GetOutDeviceName drv handle w).1, ownerAlive := false },
            (SendToDevice drv handle aStatus aData1 aData2 (GetOutDeviceName drv handle w).2).2)
        else ({ buffer := (GetOutDeviceName drv handle w).1, ownerAlive := false },
          (GetOutDeviceName drv handle w).2) := by
    unfold MidiJackSendToDevice
    simp only [hg, hsz]
    rw [hw]
    simp only [hget]
  refine ⟨?_, ?_, ?_, ?_, ?_, ?_, ?_, ?_, by omega, ?_⟩
  · rw [hres]; split <;> rfl
  · intro hne
    rw [hres, if_pos (show (GetOutDeviceName drv handle w).1 ≠ NO_DEVICE_AT_INDEX from hne)]
    simp only [SendToDevice, hw, hpk, List.append_assoc, List.singleton_append]
  · intro heq
    rw [hres, if_neg (not_not.mpr
      (show (GetOutDeviceName drv handle w).1 = NO_DEVICE_AT_INDEX from heq)), hw]
  · rw [hres]; split <;> simp [SendToDevice, hw]
  · rw [hres]; split <;> simp [SendToDevice, hw]
  · rw [hres]; split <;> simp [SendToDevice, hw]
  · rw [hres]; split <;> simp [SendToDevice, hw]
  · rw [hres]; split <;> simp [SendToDevice, hw]
  · intro source
    simp only [MidiMessage.new, Nat.shiftRight_eq_div_pow]
    refine ⟨?_, ?_, ?_⟩ <;> omega

/-- A device at a valid index that reports the name `NO_DEVICE_AT_INDEX` gets no short
message: the only driver call is the name query. -/
theorem send_skipped_for_sentinel_name :
    (MidiJackSendToDevice (oneOutDevice 5 (widen "NO_DEVICE_AT_INDEX")) true 0 0x90 0x3C 0x40
        { start () with active_out_handles := [5] }).2.calls
      = [DriverCall.midiOutGetDevCaps 5 (some (widen "NO_DEVICE_AT_INDEX"))] := by
  decide

/-- C9, the code at the failing input: index 1 with the output handles 4 and 9 open, the
device named `USB`, note-on 0x90 0x3C 0x40.  The name query and exactly one short message
with the word `0x90 + 2^8 * 0x3C + 2^16 * 0x40` go to handle 9 and `USB` is written into
the local `result`; but the pointer returned is into that destroyed local, so the caller
does not read the name. -/
theorem C9_dangling_result :
    (MidiJackSendToDevice (oneOutDevice 9 (widen "USB")) true 1 0x90 0x3C 0x40
        { start () with active_out_handles := [4, 9] }).2.calls
        = [DriverCall.midiOutGetDevCaps 9 (some (widen "USB")),
            DriverCall.midiOutShortMsg 9 (0x90 + 2 ^ 8 * 0x3C + 2 ^ 16 * 0x40)]
      ∧ (MidiJackSendToDevice (oneOutDevice 9 (widen "USB")) true 1 0x90 0x3C 0x40
          { start () with active_out_handles := [4, 9] }).1
        = { buffer := "USB", ownerAlive := false }
      ∧ (MidiJackSendToDevice (oneOutDevice 9 (widen "USB")) true 1 0x90 0x3C 0x40
          { start () with active_out_handles := [4, 9] }).1.read = none
      ∧ (MidiJackSendToDevice (oneOutDevice 9 (widen "USB")) true 1 0x90 0x3C 0x40
          { start () with active_out_handles := [4, 9] }).1.read ≠ some "USB"
      ∧ (MidiJackGetOutDevices (oneOutDevice 9 (widen "USB"))
          { start () with active_out_handles := [9] }).1.read = some "USB," := by
  decide

/-! ## Refresh -/

theorem uintToInt_small (n : Nat) (h : n < 2 ^ 31) : (uintToInt n).toNat = n := by
  unfold uintToInt
  have h1 : n % 2 ^ 32 = n := Nat.mod_eq_of_lt (by omega)
  rw [h1, if_pos h]
  exact Int.toNat_natCast n

/-- One refresh, run in full: the input stack holds 11 over 10, the output stack holds
20, and the driver reports two input devices and one output device. -/
theorem refresh_example :
    (RefreshDevices (someDevices 2 1)
        { start () with in_handles_to_close := [11, 10], out_handles_to_close := [20] }).calls
      = [DriverCall.midiInClose 11, DriverCall.midiInClose 10,
          DriverCall.midiOutReset 20, DriverCall.midiOutClose 20,
          DriverCall.midiInGetNumDevs 2,
          DriverCall.midiInOpen 0 (some 100), DriverCall.midiInStart 100 true,
          DriverCall.midiInOpen 1 (some 101), DriverCall.midiInStart 101 true,
          DriverCall.midiOutGetNumDevs 1,
          DriverCall.midiOutOpen 0 (some 200)] := by
  decide

end MidiJack
